import Mathlib

set_option allowUnsafeReducibility true

attribute [semireducible] Rat.add Rat.mul Rat.inv Rat.div Rat.sub Rat.neg Rat.floor

/-!
Verification of the finance-assistant ledger store and rule-based query
responder (`finance_assistant.py`, `ai_helper.py`).

Amounts are modelled as exact rationals (the spec's "signed decimal
currency value"); dates are ISO `YYYY-MM-DD` strings, exactly as stored in
the JSON ledger.  The wall-clock values the Python code reads via
`datetime.now()` (current month, today, yesterday, last month) are passed
as explicit parameters, following the spec's injection guidance.
Python dicts are modelled as insertion-ordered association lists.
-/

namespace Finance

/-- A ledger record, as built by `add_transaction`. -/
structure Transaction where
  amount : ℚ
  category : String
  description : String
  date : String
deriving Repr, DecidableEq

/-- The mutable state of `FinanceAssistant`: the transaction list and the
budget dict (insertion-ordered association list, unique keys). -/
structure FinState where
  transactions : List Transaction
  budgets : List (String × ℚ)
deriving Repr, DecidableEq

/-- The state after `__init__` when neither storage file exists. -/
def emptyState : FinState := ⟨[], []⟩

/-- Python's `str.startswith`, character by character. -/
def startswith (s pre : String) : Bool := pre.toList.isPrefixOf s.toList

/-- Python's `str.lower`, character by character. -/
def lower (s : String) : String := String.mk (s.toList.map Char.toLower)

/-- The first `n` characters of a string (`strftime` truncation of an ISO
date to its `YYYY-MM` or `YYYY-MM-DD` part). -/
def strTake (s : String) (n : ℕ) : String := String.mk (s.toList.take n)

/-- Python dict assignment `d[k] = v`: overwrite in place if the key
exists (keeping its position), otherwise append. -/
def dictSet (k : String) (v : ℚ) : List (String × ℚ) → List (String × ℚ)
  | [] => [(k, v)]
  | (k', v') :: rest =>
      if k' = k then (k, v) :: rest else (k', v') :: dictSet k v rest

/-- `set_budget`: `self.budgets[category] = float(amount)` then save.
The source performs no validation of `amount`. -/
def set_budget (s : FinState) (category : String) (amount : ℚ) : FinState :=
  { s with budgets := dictSet category amount s.budgets }

/-- `add_transaction`: appends the new record and saves. -/
def add_transaction (s : FinState) (amount : ℚ)
    (category description date : String) : FinState :=
  { s with transactions :=
      s.transactions ++ [⟨amount, category, description, date⟩] }

/-- `get_monthly_expenses_by_category`: sum of `abs(amount)` over
transactions in the category with negative amount whose date string
starts with the current month's `YYYY-MM` prefix.  `currentMonth` is the
wall-clock value of `datetime.now().strftime("%Y-%m")`. -/
def get_monthly_expenses_by_category (s : FinState) (currentMonth : String)
    (category : String) : ℚ :=
  ((s.transactions.filter (fun t =>
      t.category == category && decide (t.amount < 0)
        && startswith t.date currentMonth)).map (fun t => |t.amount|)).sum

/-- One entry of the `get_budget_status` result. -/
structure BudgetStatus where
  budget : ℚ
  spent : ℚ
  remaining : ℚ
  percentage : ℚ
deriving Repr, DecidableEq

/-- `get_budget_status`: one status entry per budget-dict entry. -/
def get_budget_status (s : FinState) (currentMonth : String) :
    List (String × BudgetStatus) :=
  s.budgets.map (fun (e : String × ℚ) =>
    let spent := get_monthly_expenses_by_category s currentMonth e.1
    (e.1, { budget := e.2, spent := spent, remaining := e.2 - spent,
            percentage := if e.2 > 0 then spent / e.2 * 100 else 0 }))

/-- `get_total_expenses`: sum of the negative amounts (itself negative). -/
def get_total_expenses (s : FinState) : ℚ :=
  ((s.transactions.filter (fun t => decide (t.amount < 0))).map
    (fun t => t.amount)).sum

/-- `get_total_income`: sum of the positive amounts. -/
def get_total_income (s : FinState) : ℚ :=
  ((s.transactions.filter (fun t => decide (t.amount > 0))).map
    (fun t => t.amount)).sum

/-- A sequence of `add_transaction` calls applied in order. -/
def applyAdds (s : FinState) (calls : List (ℚ × String × String × String)) :
    FinState :=
  calls.foldl
    (fun s c => add_transaction s c.1 c.2.1 c.2.2.1 c.2.2.2) s

/-- Python's substring test `pat in s`. -/
def strContains (s pat : String) : Bool :=
  (List.range (s.toList.length + 1)).any
    (fun i => pat.toList.isPrefixOf (s.toList.drop i))

/-- Two-digit zero padding for the cents part. -/
def pad2 (n : ℕ) : String := if n < 10 then "0" ++ toString n else toString n

/-- Python's `f"{x:.2f}"` on a currency amount: two digits after the
point, rounded to the nearest cent.  Amounts in this system are exact
cents, so binary-float tie behaviour never engages. -/
def format2f (q : ℚ) : String :=
  let cents : ℤ := round (q * 100)
  let sign := if cents < 0 then "-" else ""
  sign ++ toString (cents.natAbs / 100) ++ "." ++ pad2 (cents.natAbs % 100)

/-- Python's `f"{x:.1f}"`: one digit after the point. -/
def format1f (q : ℚ) : String :=
  let tenths : ℤ := round (q * 10)
  let sign := if tenths < 0 then "-" else ""
  sign ++ toString (tenths.natAbs / 10) ++ "." ++ toString (tenths.natAbs % 10)

/-- `abs(df[df['amount'] < 0]['amount'].sum())`. -/
def totalSpent (df : List Transaction) : ℚ :=
  |((df.filter (fun t => decide (t.amount < 0))).map (fun t => t.amount)).sum|

/-- `df[df['amount'] > 0]['amount'].sum()`. -/
def totalIncome (df : List Transaction) : ℚ :=
  ((df.filter (fun t => decide (t.amount > 0))).map (fun t => t.amount)).sum

/-- Lexicographic less-or-equal on character lists (codepoint order, the
order Python and pandas use on strings). -/
def charListLe : List Char → List Char → Bool
  | [], _ => true
  | _ :: _, [] => false
  | a :: as, b :: bs =>
      if a.toNat < b.toNat then true
      else if b.toNat < a.toNat then false
      else charListLe as bs

/-- Lexicographic strict less-than on character lists. -/
def charListLt : List Char → List Char → Bool
  | [], [] => false
  | [], _ :: _ => true
  | _ :: _, [] => false
  | a :: as, b :: bs =>
      if a.toNat < b.toNat then true
      else if b.toNat < a.toNat then false
      else charListLt as bs

/-- String less-or-equal, codepoint-lexicographic. -/
def strLe (a b : String) : Bool := charListLe a.toList b.toList

/-- String strict less-than, codepoint-lexicographic. -/
def strLt (a b : String) : Bool := charListLt a.toList b.toList

/-- Insertion step of an ascending insertion sort on strings. -/
def insortStr (x : String) : List String → List String
  | [] => [x]
  | y :: ys => if strLe x y then x :: y :: ys else y :: insortStr x ys

/-- Ascending sort on strings. -/
def sortStr (l : List String) : List String := l.foldr insortStr []

/-- Sorted list of the distinct elements: pandas groupby keys
(`sort=True`, the default). -/
def uniqueSorted (l : List String) : List String := (sortStr l).dedup

/-- `df[df['amount'] < 0].groupby('category')['amount'].sum().abs()`:
per-category absolute expense totals, keys in ascending order. -/
def categorySpending (df : List Transaction) : List (String × ℚ) :=
  let ex := df.filter (fun t => decide (t.amount < 0))
  (uniqueSorted (ex.map (fun t => t.category))).map
    (fun c => (c,
      |((ex.filter (fun t => t.category == c)).map (fun t => t.amount)).sum|))

/-- pandas `Series.idxmax` together with `Series.max`: the first key
attaining the maximal value.  On an empty series pandas raises
`ValueError`, modelled as `none`. -/
def idxmax : List (String × ℚ) → Option (String × ℚ)
  | [] => none
  | (c, v) :: rest =>
      match idxmax rest with
      | none => some (c, v)
      | some (c', v') => if v' > v then some (c', v') else some (c, v)

/-- `_get_highest_spending`: `none` models the uncaught `ValueError`
raised by `idxmax` when the ledger holds no expense transaction. -/
def _get_highest_spending (df : List Transaction) : Option String :=
  match idxmax (categorySpending df) with
  | none => none
  | some e =>
      some ("You spent most on " ++ e.1 ++ ": $" ++ format2f e.2)

/-- `_get_summary`. -/
def _get_summary (df : List Transaction) : String :=
  let base := "Financial Summary:\nTotal Income: $" ++ format2f (totalIncome df)
    ++ "\nTotal Expenses: $" ++ format2f (totalSpent df)
    ++ "\n\nCategory-wise spending:"
  (categorySpending df).foldl
    (fun r e => r ++ "\n- " ++ e.1 ++ ": $" ++ format2f e.2) base

/-- `_get_category_analysis`: case-insensitive category match.  Dates are
ISO `YYYY-MM-DD` strings, on which `pd.to_datetime`/`strftime('%Y-%m-%d')`
round-trips identically and datetime order is string order. -/
def _get_category_analysis (category : String) (df : List Transaction) :
    String :=
  let cd := df.filter (fun t => lower t.category == category)
  if cd.isEmpty then "No transactions found for category: " ++ category
  else
    let total :=
      |((cd.filter (fun t => decide (t.amount < 0))).map
          (fun t => t.amount)).sum|
    let recent := (cd.mergeSort (fun a b => strLe b.date a.date)).take 3
    let base := "Analysis for " ++ category ++ ":\nTotal spent: $"
      ++ format2f total ++ "\n\nRecent transactions:"
    recent.foldl (fun r t =>
      if t.amount < 0 then
        r ++ "\n- " ++ t.date ++ ": $" ++ format2f |t.amount| ++ " - "
          ++ t.description
      else r) base

/-- Ten characters forming `\d\x7b4\x7d-\d\x7b2\x7d-\d\x7b2\x7d`. -/
def isoDateAt (cs : List Char) : Bool :=
  match cs with
  | a :: b :: c :: d :: e :: f :: g :: h :: i :: j :: _ =>
      a.isDigit && b.isDigit && c.isDigit && d.isDigit && e == '-'
        && f.isDigit && g.isDigit && h == '-' && i.isDigit && j.isDigit
  | _ => false

/-- Leftmost-match scan of the character list. -/
def dateSearchList : List Char → Option (List Char)
  | [] => none
  | c :: rest =>
      if isoDateAt (c :: rest) then some ((c :: rest).take 10)
      else dateSearchList rest

/-- `re.search` for an embedded ISO date in the query. -/
def dateSearch (q : String) : Option String :=
  (dateSearchList q.toList).map String.mk

/-- `_get_date_spending`.  `today`/`yesterday` are the wall-clock dates.
`none` models the `AttributeError` from `.group(1)` on a failed search
(unreachable from `chat_response`, whose guard established a match). -/
def _get_date_spending (query : String) (df : List Transaction)
    (today yesterday : String) : Option String :=
  let dateOpt :=
    if strContains query "today" then some today
    else if strContains query "yesterday" then some yesterday
    else dateSearch query
  match dateOpt with
  | none => none
  | some date =>
      let day := df.filter (fun t => t.date == date)
      if day.isEmpty then some ("No transactions found for " ++ date)
      else
        let ts :=
          |((day.filter (fun t => decide (t.amount < 0))).map
              (fun t => t.amount)).sum|
        let base := "On " ++ date ++ ", you spent $" ++ format2f ts
          ++ "\n\nBreakdown:"
        some (day.foldl (fun r t =>
          if t.amount < 0 then
            r ++ "\n- $" ++ format2f |t.amount| ++ " on " ++ t.category
              ++ ": " ++ t.description
          else r) base)

/-- `_get_monthly_spending`.  `currentMonth`/`lastMonth` are the
wall-clock `YYYY-MM` values computed by the source. -/
def _get_monthly_spending (query : String) (df : List Transaction)
    (currentMonth lastMonth : String) : String :=
  let target :=
    if strContains query "last month" then lastMonth else currentMonth
  let md := df.filter (fun t => strTake t.date 7 == target)
  if md.isEmpty then "No transactions found for " ++ target
  else
    let ts := totalSpent md
    let base := "Monthly Analysis for " ++ target ++ ":\nTotal spent: $"
      ++ format2f ts ++ "\n\nCategory breakdown:"
    (categorySpending md).foldl
      (fun r e => r ++ "\n- " ++ e.1 ++ ": $" ++ format2f e.2) base

/-- The fixed category keywords of fallback branch (c). -/
def fallbackCategories : List String :=
  ["food", "transport", "entertainment", "bills", "other"]

/-- The month keywords of fallback branch (e). -/
def monthWords : List String :=
  ["month", "january", "february", "march", "april", "may", "june",
   "july", "august", "september", "october", "november", "december"]

/-- The empty-ledger short-circuit message. -/
def noDataMsg : String :=
  "I don't have any transaction data to analyze yet. Please add some transactions first!"

/-- The canned greeting built from the running expense total. -/
def greetingMsg (total_spent : ℚ) : String :=
  "Hello! Today's overview:\nTotal spent so far: $" ++ format2f total_spent
    ++ "\nWould you like to know more about your spending?"

/-- The branch-(f) help message. -/
def helpMsg : String :=
  "I apologize, but I encountered an error. You can ask me about:\n- Spending on specific dates\n- Monthly analysis\n- Category-wise spending\n- Overall summary"

/-- `chat_response`.  The external text-generation call is modelled by
`externalReply`: `some r` is a successful call returning `r`, `none` is
any exception, routed to the fallback decision tree.  The overall result
is `none` exactly when the source raises an uncaught exception. -/
def chat_response (query : String) (transactions : List Transaction)
    (externalReply : Option String)
    (today yesterday currentMonth lastMonth : String) : Option String :=
  if transactions.isEmpty then some noDataMsg
  else
    let df := transactions
    let total_spent := totalSpent df
    let q := lower query
    if ["hi", "hello", "hey"].any (fun w => strContains q w) then
      some (greetingMsg total_spent)
    else
      match externalReply with
      | some reply => some reply
      | none =>
          if strContains q "spent most" then _get_highest_spending df
          else if strContains q "summary" then some (_get_summary df)
          else if fallbackCategories.any (fun c => strContains q c) then
            match fallbackCategories.find? (fun c => strContains q c) with
            | some c => some (_get_category_analysis c df)
            | none => none
          else if (dateSearch q).isSome || strContains q "today"
              || strContains q "yesterday" then
            _get_date_spending q df today yesterday
          else if monthWords.any (fun w => strContains q w) then
            some (_get_monthly_spending q df currentMonth lastMonth)
          else some helpMsg

/-- `df['category'].unique()`: distinct values in order of first
appearance. -/
def uniqueFirst (seen : List String) : List String → List String
  | [] => []
  | c :: rest =>
      if seen.contains c then uniqueFirst seen rest
      else c :: uniqueFirst (c :: seen) rest

/-- Mean of a category's amounts (all transactions, not only expenses —
the source applies no sign filter here). -/
def catMean (df : List Transaction) (c : String) : ℚ :=
  let xs := (df.filter (fun t => t.category == c)).map (fun t => t.amount)
  xs.sum / xs.length

/-- pandas sample variance (`std` squared, `ddof = 1`) of a category's
amounts.  A single observation yields `NaN`, which the source replaces
by a standard deviation of 0; both are modelled as variance 0. -/
def catVar (df : List Transaction) (c : String) : ℚ :=
  let xs := (df.filter (fun t => t.category == c)).map (fun t => t.amount)
  if 2 ≤ xs.length then
    let m := xs.sum / xs.length
    ((xs.map (fun x => (x - m) ^ 2)).sum) / ((xs.length : ℚ) - 1)
  else 0

/-- `amount < mean - 2*std ∨ amount > mean + 2*std` with `std = √var`,
written without square roots: for `var ≥ 0`,
`m + 2*√var < x ↔ m < x ∧ 4*var < (x - m)²` (see `isUnusual_iff`). -/
def isUnusual (x m var : ℚ) : Bool :=
  (decide (x < m) && decide (4 * var < (m - x) ^ 2))
    || (decide (m < x) && decide (4 * var < (x - m) ^ 2))

/-- `df.groupby(date month)['amount'].sum()`: per-month totals over all
amounts, keys (`YYYY-MM` prefixes) in ascending order. -/
def monthlySpending (df : List Transaction) : List (String × ℚ) :=
  (uniqueSorted (df.map (fun t => strTake t.date 7))).map (fun mo =>
    (mo, ((df.filter (fun t => strTake t.date 7 == mo)).map
      (fun t => t.amount)).sum))

/-- `get_insights`.  On an empty transaction list `prepare_data` returns
the pair `(None, None)` — a tuple, not `None` — so the `if df is None`
guard fails and `df.groupby` raises `AttributeError`; that uncaught
raise is modelled as `none`.  Otherwise the call returns (as `some`) one
"Unusual spending" line per category holding a transaction more than 2
sample standard deviations from the category mean (first-appearance
category order), then, when at least two distinct months occur, the
month-over-month change line (the source's division by a zero
previous-month total would yield a float infinity; here `ℚ` division by
zero gives 0 — no claim touches that input). -/
def get_insights (transactions : List Transaction) : Option (List String) :=
  if transactions.isEmpty then none
  else some (
    let df := transactions
    let unusual := (uniqueFirst [] (df.map (fun t => t.category))).filterMap
      (fun c =>
        let cd := df.filter (fun t => t.category == c)
        if 0 < cd.length then
          let m := catMean df c
          let v := catVar df c
          if 0 < (cd.filter (fun t => isUnusual t.amount m v)).length then
            some ("Unusual spending detected in " ++ c)
          else none
        else none)
    match (monthlySpending df).reverse with
    | cur :: prev :: _ =>
        let change := (cur.2 - prev.2) / prev.2 * 100
        unusual ++ ["Monthly spending changed by " ++ format1f change
          ++ "% compared to last month"]
    | _ => unusual)

/-- Days since 1970-01-01 of a proleptic-Gregorian civil date with
`y ≥ 1` (every date in this system is a CE calendar date, so the integer
divisions below act on non-negative operands and truncation equals
floor). -/
def daysFromCivil (y m d : ℤ) : ℤ :=
  let y2 := if m ≤ 2 then y - 1 else y
  let era := y2 / 400
  let yoe := y2 - era * 400
  let mp := (m + 9) % 12
  let doy := (153 * mp + 2) / 5 + d - 1
  let doe := yoe * 365 + yoe / 4 - yoe / 100 + doy
  era * 146097 + doe - 719468

/-- `pd.to_datetime` on an ISO `YYYY-MM-DD` string, as a day number.
The source would raise on a malformed date; dates here are valid ISO. -/
def dateToDays (s : String) : ℤ :=
  match (strTake s 10).splitOn "-" with
  | [ys, ms, ds] =>
      match ys.toInt?, ms.toInt?, ds.toInt? with
      | some y, some mo, some d => daysFromCivil y mo d
      | _, _, _ => 0
  | _ => 0

/-- Insertion step of a lexicographic sort on (date, category) pairs. -/
def insortPair (x : String × String) :
    List (String × String) → List (String × String)
  | [] => [x]
  | y :: ys =>
      if strLt x.1 y.1 || (x.1 == y.1 && strLe x.2 y.2) then x :: y :: ys
      else y :: insortPair x ys

/-- Ascending lexicographic sort on (date, category) pairs: the groupby
key order of `groupby(date category)`. -/
def sortPairs (l : List (String × String)) : List (String × String) :=
  l.foldr insortPair []

/-- `get_spending_trends`: keep transactions dated within `days` of the
most recent transaction's date, then group by (date, category) summing
amounts, rows in ascending key order. -/
def get_spending_trends (s : FinState) (days : ℤ) :
    List ((String × String) × ℚ) :=
  if s.transactions.isEmpty then []
  else
    let ds := s.transactions.map (fun t => dateToDays t.date)
    let lastD := ds.foldl max (ds.headD 0)
    let startD := lastD - days
    let kept := s.transactions.filter (fun t => startD ≤ dateToDays t.date)
    let keys := (sortPairs (kept.map (fun t => (t.date, t.category)))).dedup
    keys.map (fun k =>
      (k, ((kept.filter (fun t => t.date == k.1 && t.category == k.2)).map
        (fun t => t.amount)).sum))

/-!
Method-call forms.  A Python method call receives the object state and
may reassign its fields; the translation of each read-only method body
threads the state through its statements, none of which writes a field,
so each call returns its value paired with the resulting state.
-/

/-- Method call `get_total_income()`. -/
def get_total_income_call (s : FinState) : ℚ × FinState :=
  (get_total_income s, s)

/-- Method call `get_total_expenses()`. -/
def get_total_expenses_call (s : FinState) : ℚ × FinState :=
  (get_total_expenses s, s)

/-- Method call `get_monthly_expenses_by_category(category)`. -/
def get_monthly_expenses_by_category_call (s : FinState)
    (currentMonth category : String) : ℚ × FinState :=
  (get_monthly_expenses_by_category s currentMonth category, s)

/-- Method call `get_budget_status()`. -/
def get_budget_status_call (s : FinState) (currentMonth : String) :
    List (String × BudgetStatus) × FinState :=
  (get_budget_status s currentMonth, s)

/-- Method call `get_spending_trends(days)`. -/
def get_spending_trends_call (s : FinState) (days : ℤ) :
    List ((String × String) × ℚ) × FinState :=
  (get_spending_trends s days, s)

/-- Method call `chat_response(query, transactions)` on the ledger's
transaction list. -/
def chat_response_call (s : FinState) (query : String)
    (externalReply : Option String)
    (today yesterday currentMonth lastMonth : String) :
    Option String × FinState :=
  (chat_response query s.transactions externalReply today yesterday
    currentMonth lastMonth, s)

/-- Method call `get_insights(transactions)` on the ledger's
transaction list.  The `AttributeError` the source raises on an empty
ledger (`none`) propagates without any field of the state having been
written, so the post-state is the pre-state on that path too. -/
def get_insights_call (s : FinState) : Option (List String) × FinState :=
  (get_insights s.transactions, s)

/-! ### Supporting lemmas -/

/-- Summing the positive and the negative amounts separately recovers the
sum of all amounts (zero amounts contribute nothing to either side). -/
lemma filter_pos_add_filter_neg_sum (ts : List Transaction) :
    ((ts.filter (fun t => decide (t.amount > 0))).map (fun t => t.amount)).sum
      + ((ts.filter (fun t => decide (t.amount < 0))).map (fun t => t.amount)).sum
      = (ts.map (fun t => t.amount)).sum := by
  induction ts with
  | nil => simp
  | cons t ts ih =>
      rcases lt_trichotomy t.amount 0 with h | h | h
      · simp only [List.filter_cons, List.map_cons, List.sum_cons,
          decide_eq_true_eq]
        rw [if_neg (by simpa using asymm h), if_pos (by simpa using h)]
        simp only [List.map_cons, List.sum_cons]
        linarith [ih]
      · simp only [List.filter_cons, List.map_cons, List.sum_cons]
        rw [if_neg (by simp [h]), if_neg (by simp [h])]
        rw [h]
        linarith [ih]
      · simp only [List.filter_cons, List.map_cons, List.sum_cons]
        rw [if_pos (by simpa using h), if_neg (by simpa using asymm h)]
        simp only [List.map_cons, List.sum_cons]
        linarith [ih]

/-- The transaction list built by a sequence of `add_transaction` calls. -/
lemma applyAdds_transactions (calls : List (ℚ × String × String × String))
    (s : FinState) :
    (applyAdds s calls).transactions
      = s.transactions
        ++ calls.map (fun c => (⟨c.1, c.2.1, c.2.2.1, c.2.2.2⟩ : Transaction)) := by
  induction calls generalizing s with
  | nil => simp [applyAdds]
  | cons c rest ih =>
      show (applyAdds (add_transaction s c.1 c.2.1 c.2.2.1 c.2.2.2)
        rest).transactions = _
      rw [ih]
      simp [add_transaction]

/-! ### Claims -/

/-- C1: starting from the empty ledger, after any finite sequence of
`add_transaction` calls, `get_total_income() - (-get_total_expenses())`
equals the sum of all transaction amounts. -/
theorem income_minus_neg_expenses_eq_sum
    (calls : List (ℚ × String × String × String)) :
    get_total_income (applyAdds emptyState calls)
        - (-(get_total_expenses (applyAdds emptyState calls)))
      = (calls.map (fun c => c.1)).sum := by
  have h := filter_pos_add_filter_neg_sum (applyAdds emptyState calls).transactions
  unfold get_total_income get_total_expenses
  rw [sub_neg_eq_add, h, applyAdds_transactions]
  simp [emptyState, List.map_map]
  rfl

/-- C2: `get_budget_status` has exactly the budget dict's categories as
keys (never a category absent from it), and every entry satisfies
`remaining = budget - spent`, `percentage = spent/budget*100` when the
budget is positive, and `percentage = 0` when the budget is 0, whatever
`spent` is. -/
theorem get_budget_status_spec (s : FinState) (mth : String) :
    (get_budget_status s mth).map Prod.fst = s.budgets.map Prod.fst ∧
    ∀ e ∈ get_budget_status s mth,
      e.2.remaining = e.2.budget - e.2.spent ∧
      (0 < e.2.budget → e.2.percentage = e.2.spent / e.2.budget * 100) ∧
      (e.2.budget = 0 → e.2.percentage = 0) := by
  constructor
  · simp [get_budget_status, List.map_map]
  · intro e he
    simp only [get_budget_status, List.mem_map] at he
    obtain ⟨b, hb, rfl⟩ := he
    refine ⟨rfl, fun hpos => if_pos hpos, fun hzero => ?_⟩
    have hz : b.2 = 0 := hzero
    rw [if_neg]
    rw [hz]
    exact lt_irrefl 0

/-- Concrete ledger used to instantiate `get_budget_status_spec`. -/
def wState : FinState :=
  ⟨[⟨-20, "Food", "groceries", "2024-03-05"⟩],
   [("Food", 100), ("Fun", 0)]⟩

/-- Witness for C2 at a concrete ledger: the keys are exactly the budget
dict's, the positive-budget entry has its percentage, and the zero-budget
entry's percentage is 0. -/
theorem get_budget_status_spec_witness :
    (get_budget_status wState "2024-03").map Prod.fst = ["Food", "Fun"] ∧
    (("Food", (⟨100, 20, 80, 20⟩ : BudgetStatus)).2.percentage
      = ("Food", (⟨100, 20, 80, 20⟩ : BudgetStatus)).2.spent
          / ("Food", (⟨100, 20, 80, 20⟩ : BudgetStatus)).2.budget * 100) ∧
    ("Fun", (⟨0, 0, 0, 0⟩ : BudgetStatus)).2.percentage = 0 := by
  refine ⟨?_, ?_, ?_⟩
  · rw [(get_budget_status_spec wState "2024-03").1]
    rfl
  · exact ((get_budget_status_spec wState "2024-03").2
      ("Food", ⟨100, 20, 80, 20⟩) (by decide)).2.1 (by decide)
  · exact ((get_budget_status_spec wState "2024-03").2
      ("Fun", ⟨0, 0, 0, 0⟩) (by decide)).2.2 (by decide)

/-- The C3 example transactions. -/
def exTs : List Transaction :=
  [⟨-50, "Food", "a", "2024-03-02"⟩, ⟨-30, "Food", "b", "2024-04-01"⟩,
   ⟨20, "Food", "c", "2024-03-10"⟩]

/-- C3: `get_monthly_expenses_by_category` is the absolute sum over
exactly the transactions with negative amount, the given category, and a
date starting with the month's `YYYY-MM` prefix (string-prefix match);
on the Food/2024-03 example it returns 50. -/
theorem get_monthly_expenses_by_category_spec :
    (∀ (s : FinState) (mth category : String),
      get_monthly_expenses_by_category s mth category
        = ((s.transactions.filter (fun t =>
              decide (t.amount < 0) && (t.category == category)
                && startswith t.date mth)).map (fun t => |t.amount|)).sum) ∧
    get_monthly_expenses_by_category ⟨exTs, []⟩ "2024-03" "Food" = 50 := by
  constructor
  · intro s mth category
    unfold get_monthly_expenses_by_category
    congr 2
    apply List.filter_congr
    intro t _
    cases t.category == category <;> cases decide (t.amount < 0)
      <;> cases startswith t.date mth <;> rfl
  · decide

/-- `dictSet` stores the value at the key. -/
lemma dictSet_lookup_self (k : String) (v : ℚ) (l : List (String × ℚ)) :
    (dictSet k v l).lookup k = some v := by
  induction l with
  | nil => simp [dictSet, List.lookup]
  | cons p rest ih =>
      obtain ⟨k', v'⟩ := p
      by_cases h : k' = k
      · subst h
        simp [dictSet, List.lookup]
      · have hk : (k == k') = false := beq_eq_false_iff_ne.mpr (Ne.symm h)
        simp [dictSet, h, List.lookup, hk, ih]

/-- `dictSet` leaves every other key's value alone. -/
lemma dictSet_lookup_ne (k : String) (v : ℚ) (k' : String) (h : k' ≠ k)
    (l : List (String × ℚ)) :
    (dictSet k v l).lookup k' = l.lookup k' := by
  have hk : (k' == k) = false := beq_eq_false_iff_ne.mpr h
  induction l with
  | nil => simp [dictSet, List.lookup, hk]
  | cons p rest ih =>
      obtain ⟨k1, v1⟩ := p
      by_cases h1 : k1 = k
      · subst h1
        simp [dictSet, List.lookup, hk]
      · simp [dictSet, h1, List.lookup, ih]

/-- `dictSet` keeps the key list, appending the key only when new. -/
lemma dictSet_keys (k : String) (v : ℚ) (l : List (String × ℚ)) :
    (dictSet k v l).map Prod.fst =
      if k ∈ l.map Prod.fst then l.map Prod.fst
      else l.map Prod.fst ++ [k] := by
  induction l with
  | nil => simp [dictSet]
  | cons p rest ih =>
      obtain ⟨k1, v1⟩ := p
      by_cases h1 : k1 = k
      · subst h1
        simp [dictSet]
      · by_cases h2 : k ∈ rest.map Prod.fst
        · simp [dictSet, h1, ih, h2, Ne.symm h1]
        · simp [dictSet, h1, ih, h2, Ne.symm h1]

/-- `dictSet` preserves key uniqueness. -/
lemma dictSet_keys_nodup (k : String) (v : ℚ) (l : List (String × ℚ))
    (h : (l.map Prod.fst).Nodup) :
    ((dictSet k v l).map Prod.fst).Nodup := by
  rw [dictSet_keys]
  by_cases hm : k ∈ l.map Prod.fst
  · simpa [hm] using h
  · simp [hm, List.nodup_append, h]

/-- C4 counterexample: `set_budget` accepts a negative amount — the call
total-returns and changes the budget map, where the claim requires a
`ValidationError` and an unchanged map. -/
theorem set_budget_negative_not_rejected :
    (set_budget emptyState "Food" (-5)).budgets = [("Food", -5)] ∧
    (set_budget emptyState "Food" (-5)).budgets ≠ emptyState.budgets := by
  exact ⟨rfl, by decide⟩

/-- C4 (amended): for every amount, negative included, `set_budget`
upserts the budget map entry — the stored value becomes the amount, other
entries are untouched, the key is appended only when new, and key
uniqueness is preserved — and the transaction list is unchanged.  No
validation occurs. -/
theorem set_budget_upserts (s : FinState) (c : String) (a : ℚ) :
    (set_budget s c a).transactions = s.transactions ∧
    (set_budget s c a).budgets.lookup c = some a ∧
    (∀ c', c' ≠ c →
      (set_budget s c a).budgets.lookup c' = s.budgets.lookup c') ∧
    ((set_budget s c a).budgets.map Prod.fst =
      if c ∈ s.budgets.map Prod.fst then s.budgets.map Prod.fst
      else s.budgets.map Prod.fst ++ [c]) ∧
    ((s.budgets.map Prod.fst).Nodup →
      ((set_budget s c a).budgets.map Prod.fst).Nodup) :=
  ⟨rfl, dictSet_lookup_self c a s.budgets,
   fun c' h => dictSet_lookup_ne c a c' h s.budgets,
   dictSet_keys c a s.budgets,
   dictSet_keys_nodup c a s.budgets⟩

/-- Concrete ledger used to instantiate `set_budget_upserts`. -/
def wState4 : FinState := ⟨[], [("Rent", 300)]⟩

/-- Witness for the amended C4 at a concrete budget map: setting Food
leaves Rent's value alone and keeps the keys unique. -/
theorem set_budget_upserts_witness :
    (set_budget wState4 "Food" 50).budgets.lookup "Rent"
        = wState4.budgets.lookup "Rent" ∧
    ((set_budget wState4 "Food" 50).budgets.map Prod.fst).Nodup :=
  ⟨(set_budget_upserts wState4 "Food" 50).2.2.1 "Rent" (by decide),
   (set_budget_upserts wState4 "Food" 50).2.2.2.2 (by simp [wState4])⟩

/-- C5: on an empty transaction list, `chat_response` returns the
"no transaction data yet" message for every query, before greeting
detection, the external call, and the fallback tree. -/
theorem chat_response_empty_ledger (query : String) (ext : Option String)
    (td yd cm lm : String) :
    chat_response query [] ext td yd cm lm = some noDataMsg := rfl

/-- Concrete single-expense ledger used by the C6 witness. -/
def wTs6 : List Transaction := [⟨-50, "Food", "coffee", "2024-03-01"⟩]

/-- C6: with a non-empty ledger, any query whose lowercased text contains
"hi", "hello" or "hey" as a substring — even embedded in another word,
like the "hi" in "this" — returns the canned greeting carrying the
running expense total, and the result is independent of the external
call's outcome and of every wall-clock value, so neither the external
call nor any fallback branch is reached. -/
theorem chat_response_greeting (query : String) (ts : List Transaction)
    (r1 r2 : Option String) (td yd cm lm td2 yd2 cm2 lm2 : String)
    (hne : ts ≠ [])
    (hgreet : (["hi", "hello", "hey"].any
      (fun w => strContains (lower query) w)) = true) :
    chat_response query ts r1 td yd cm lm
        = some (greetingMsg (totalSpent ts)) ∧
    chat_response query ts r1 td yd cm lm
        = chat_response query ts r2 td2 yd2 cm2 lm2 := by
  have hempty : ts.isEmpty = false := by simp [List.isEmpty_iff, hne]
  constructor <;> simp [chat_response, hempty, hgreet]

/-- Witness for C6: the "hi" inside "this" triggers the greeting, and a
successful external reply would make no difference. -/
theorem chat_response_greeting_witness :
    chat_response "this" wTs6 (some "external") "a" "b" "c" "d"
        = some (greetingMsg (totalSpent wTs6)) ∧
    chat_response "this" wTs6 (some "external") "a" "b" "c" "d"
        = chat_response "this" wTs6 none "w" "x" "y" "z" :=
  chat_response_greeting "this" wTs6 (some "external") none
    "a" "b" "c" "d" "w" "x" "y" "z" (by decide) (by decide)

/-- C8: each of the three fallback analyses returns its human-readable
"No transactions found" message — a value, not an exception — whenever
zero transactions match the resolved date, the resolved month, or the
requested category. -/
theorem fallback_no_match_messages :
    (∀ (q : String) (df : List Transaction) (td yd date : String),
      (if strContains q "today" then some td
       else if strContains q "yesterday" then some yd
       else dateSearch q) = some date →
      df.filter (fun t => t.date == date) = [] →
      _get_date_spending q df td yd
        = some ("No transactions found for " ++ date)) ∧
    (∀ (q : String) (df : List Transaction) (cm lm : String),
      df.filter (fun t => strTake t.date 7
          == (if strContains q "last month" then lm else cm)) = [] →
      _get_monthly_spending q df cm lm
        = "No transactions found for "
            ++ (if strContains q "last month" then lm else cm)) ∧
    (∀ (c : String) (df : List Transaction),
      df.filter (fun t => lower t.category == c) = [] →
      _get_category_analysis c df
        = "No transactions found for category: " ++ c) := by
  refine ⟨?_, ?_, ?_⟩
  · intro q df td yd date hd hf
    unfold _get_date_spending
    rw [hd]
    simp [hf]
  · intro q df cm lm hf
    unfold _get_monthly_spending
    simp [hf]
  · intro c df hf
    unfold _get_category_analysis
    simp [hf]

/-- Concrete ledger with no March 2024 data, used by the C8 witness. -/
def wTs8 : List Transaction := [⟨-1, "Bills", "x", "2024-01-01"⟩]

/-- Witness for C8: an unmatched explicit date, an unmatched current
month, and an unmatched category each yield their message. -/
theorem fallback_no_match_witness :
    _get_date_spending "x 2024-03-05" wTs8 "td" "yd"
        = some ("No transactions found for " ++ "2024-03-05") ∧
    _get_monthly_spending "spending this month" wTs8 "2024-03" "2024-02"
        = "No transactions found for "
            ++ (if strContains "spending this month" "last month"
                then "2024-02" else "2024-03") ∧
    _get_category_analysis "food" wTs8
        = "No transactions found for category: " ++ "food" :=
  ⟨fallback_no_match_messages.1 "x 2024-03-05" wTs8 "td" "yd" "2024-03-05"
      (by decide) (by decide),
   fallback_no_match_messages.2.1 "spending this month" wTs8
      "2024-03" "2024-02" (by decide),
   fallback_no_match_messages.2.2 "food" wTs8 (by decide)⟩

/-- `insortStr` never returns the empty list. -/
lemma insortStr_ne_nil (x : String) (l : List String) :
    insortStr x l ≠ [] := by
  cases l with
  | nil => simp [insortStr]
  | cons y ys =>
      unfold insortStr
      split <;> simp

/-- `sortStr` returns the empty list only on the empty list. -/
lemma sortStr_eq_nil_iff (l : List String) : sortStr l = [] ↔ l = [] := by
  cases l with
  | nil => simp [sortStr]
  | cons x xs =>
      simp only [sortStr, List.foldr_cons]
      constructor
      · intro h
        exact absurd h (insortStr_ne_nil x _)
      · intro h
        exact absurd h (by simp)

/-- `idxmax` returns `none` exactly on the empty series. -/
lemma idxmax_eq_none_iff (l : List (String × ℚ)) :
    idxmax l = none ↔ l = [] := by
  cases l with
  | nil => simp [idxmax]
  | cons p rest =>
      obtain ⟨c, v⟩ := p
      simp only [idxmax]
      cases h : idxmax rest with
      | none => simp
      | some e =>
          obtain ⟨c2, v2⟩ := e
          dsimp only
          split <;> simp

/-- The per-category expense grouping is empty exactly when the ledger
holds no expense transaction. -/
lemma categorySpending_eq_nil_iff (df : List Transaction) :
    categorySpending df = [] ↔ ∀ t ∈ df, ¬ t.amount < 0 := by
  unfold categorySpending
  rw [List.map_eq_nil_iff]
  unfold uniqueSorted
  rw [List.dedup_eq_nil, sortStr_eq_nil_iff, List.map_eq_nil_iff,
    List.filter_eq_nil_iff]
  simp

/-- C9 counterexample: on a non-empty ledger with no expense transaction,
the "spent most" fallback branch does not return a response string — the
`idxmax` over the empty category grouping raises, modelled as `none`. -/
theorem spent_most_no_expense_raises :
    chat_response "spent most" [⟨100, "Income", "salary", "2024-03-01"⟩]
      none "td" "yd" "cm" "lm" = none := by decide

/-- C9 (amended): the "spent most" fallback branch returns a response
string exactly when the ledger contains at least one expense
(negative-amount) transaction; with none it propagates an exception. -/
theorem spent_most_total_iff_expense (q : String) (ts : List Transaction)
    (td yd cm lm : String)
    (hne : ts ≠ [])
    (hnogreet : (["hi", "hello", "hey"].any
      (fun w => strContains (lower q) w)) = false)
    (hsm : strContains (lower q) "spent most" = true) :
    (chat_response q ts none td yd cm lm).isSome
      ↔ ∃ t ∈ ts, t.amount < 0 := by
  have hempty : ts.isEmpty = false := by simp [List.isEmpty_iff, hne]
  have hred : chat_response q ts none td yd cm lm
      = _get_highest_spending ts := by
    simp [chat_response, hempty, hnogreet, hsm]
  rw [hred]
  constructor
  · intro hs
    by_contra hno
    push_neg at hno
    have hcs : categorySpending ts = [] :=
      (categorySpending_eq_nil_iff ts).mpr (fun t ht => not_lt.mpr (hno t ht))
    have : _get_highest_spending ts = none := by
      unfold _get_highest_spending
      rw [(idxmax_eq_none_iff _).mpr hcs]
    rw [this] at hs
    simp at hs
  · rintro ⟨t, ht, hlt⟩
    have hcs : categorySpending ts ≠ [] := fun hnil =>
      absurd hlt ((categorySpending_eq_nil_iff ts).mp hnil t ht)
    have hx : idxmax (categorySpending ts) ≠ none := fun h =>
      hcs ((idxmax_eq_none_iff _).mp h)
    unfold _get_highest_spending
    cases h : idxmax (categorySpending ts) with
    | none => exact absurd h hx
    | some e => simp

/-- Concrete single-expense ledger used by the C9 witness. -/
def wTs9 : List Transaction := [⟨-100, "Food", "dinner", "2024-03-01"⟩]

/-- Witness for the amended C9 on a ledger with one expense. -/
theorem spent_most_total_iff_expense_witness :
    (chat_response "spent most" wTs9 none "td" "yd" "cm" "lm").isSome
      ↔ ∃ t ∈ wTs9, t.amount < 0 :=
  spent_most_total_iff_expense "spent most" wTs9 "td" "yd" "cm" "lm"
    (by decide) (by decide) (by decide)

/-- For a non-negative radicand, `2 * sqrt b < a` holds exactly when `a`
is positive with `4 * b < a ^ 2`: the square-free test `isUnusual` uses. -/
lemma two_sqrt_lt_iff (a b : ℝ) (_hb : 0 ≤ b) :
    2 * Real.sqrt b < a ↔ 0 < a ∧ 4 * b < a ^ 2 := by
  have h4 : (4 : ℝ) * b = 2 ^ 2 * b := by ring
  have hs : 2 * Real.sqrt b = Real.sqrt (4 * b) := by
    rw [h4, Real.sqrt_mul (by positivity), Real.sqrt_sq (by norm_num)]
  rw [hs]
  constructor
  · intro h
    have ha : 0 < a := lt_of_le_of_lt (Real.sqrt_nonneg _) h
    exact ⟨ha, (Real.sqrt_lt' ha).mp h⟩
  · rintro ⟨ha, h⟩
    exact (Real.sqrt_lt' ha).mpr h

/-- `isUnusual` decides exactly the source's condition "more than two
standard deviations from the mean", with the standard deviation read as
the square root of the (non-negative) variance. -/
lemma isUnusual_iff_sqrt (x m v : ℚ) (hv : 0 ≤ v) :
    isUnusual x m v = true ↔
      ((x : ℝ) < (m : ℝ) - 2 * Real.sqrt (v : ℝ)
        ∨ (m : ℝ) + 2 * Real.sqrt (v : ℝ) < (x : ℝ)) := by
  have hv2 : (0 : ℝ) ≤ (v : ℝ) := by exact_mod_cast hv
  have hL : (x : ℝ) < (m : ℝ) - 2 * Real.sqrt (v : ℝ)
      ↔ 2 * Real.sqrt (v : ℝ) < (m : ℝ) - (x : ℝ) := by
    constructor <;> intro h <;> linarith
  have hR : (m : ℝ) + 2 * Real.sqrt (v : ℝ) < (x : ℝ)
      ↔ 2 * Real.sqrt (v : ℝ) < (x : ℝ) - (m : ℝ) := by
    constructor <;> intro h <;> linarith
  rw [hL, hR, two_sqrt_lt_iff _ _ hv2, two_sqrt_lt_iff _ _ hv2]
  unfold isUnusual
  simp only [Bool.or_eq_true, Bool.and_eq_true, decide_eq_true_eq]
  constructor
  · rintro (⟨h1, h2⟩ | ⟨h1, h2⟩)
    · left
      constructor
      · have : (x : ℝ) < (m : ℝ) := by exact_mod_cast h1
        linarith
      · have : ((4 * v : ℚ) : ℝ) < (((m - x) ^ 2 : ℚ) : ℝ) := by
          exact_mod_cast h2
        push_cast at this
        linarith
    · right
      constructor
      · have : (m : ℝ) < (x : ℝ) := by exact_mod_cast h1
        linarith
      · have : ((4 * v : ℚ) : ℝ) < (((x - m) ^ 2 : ℚ) : ℝ) := by
          exact_mod_cast h2
        push_cast at this
        linarith
  · rintro (⟨h1, h2⟩ | ⟨h1, h2⟩)
    · left
      constructor
      · have : (x : ℝ) < (m : ℝ) := by linarith
        exact_mod_cast this
      · have : ((4 * v : ℚ) : ℝ) < (((m - x) ^ 2 : ℚ) : ℝ) := by
          push_cast
          linarith
        exact_mod_cast this
    · right
      constructor
      · have : (m : ℝ) < (x : ℝ) := by linarith
        exact_mod_cast this
      · have : ((4 * v : ℚ) : ℝ) < (((x - m) ^ 2 : ℚ) : ℝ) := by
          push_cast
          linarith
        exact_mod_cast this

/-- The C7 example: a single category with amounts 10, 10, 10, 10, 1000
(mean 208, sample variance 196020). -/
def c7input : List Transaction :=
  [⟨10, "Food", "a", "2024-03-01"⟩, ⟨10, "Food", "b", "2024-03-02"⟩,
   ⟨10, "Food", "c", "2024-03-03"⟩, ⟨10, "Food", "d", "2024-03-04"⟩,
   ⟨1000, "Food", "e", "2024-03-05"⟩]

/-- C7 counterexample: `get_insights` on the 10,10,10,10,1000 category
emits no "unusual spending" insight — 1000 - 208 = 792 is less than two
sample standard deviations (2·√196020 ≈ 885.4), so the claimed outlier
is not flagged in the returned insight list. -/
theorem insights_no_unusual_flag :
    ¬ ∃ l ∈ get_insights c7input, "Unusual spending detected in Food" ∈ l := by
  rw [show get_insights c7input = some [] by decide]
  simp

/-- C7 (amended): on the 10,10,10,10,1000 category no transaction lies
more than two sample standard deviations from the category mean
(792² = 627264 < 4·196020 = 784080), so `get_insights` returns normally
with no insight at all for this single-month input. -/
theorem insights_outlier_within_two_std :
    (c7input.all (fun t => !(isUnusual t.amount (catMean c7input "Food")
        (catVar c7input "Food")))) = true ∧
    get_insights c7input = some [] := by
  constructor <;> decide

/-- C10: the seven read-only operations return the ledger state they were
given: the transaction sequence and the budget map are unchanged by every
query, chat, and insight call. -/
theorem read_ops_preserve_state (s : FinState) (cm cat q td yd lm : String)
    (ext : Option String) (days : ℤ) :
    (get_total_income_call s).2 = s ∧
    (get_total_expenses_call s).2 = s ∧
    (get_monthly_expenses_by_category_call s cm cat).2 = s ∧
    (get_budget_status_call s cm).2 = s ∧
    (get_spending_trends_call s days).2 = s ∧
    (chat_response_call s q ext td yd cm lm).2 = s ∧
    (get_insights_call s).2 = s :=
  ⟨rfl, rfl, rfl, rfl, rfl, rfl, rfl⟩

end Finance
